import Mathlib

/-!
Shallow embedding of `ec2_termination.py` (aws-ec2-termination-by-tags).

The EC2 client is modelled as an environment of oracle functions: each
provider call consults the environment and is recorded as an `Event` in a
trace, so that claims about which provider calls occur (mutating calls,
retries, pagination arguments) can be stated over the trace.  Exceptions
raised by Python code are modelled with `Except`: a `ClientError` raised by
the provider is an `Except.error` from the corresponding oracle, and a
Python-level error escaping a function (an unbound local, an uncaught
provider error) is an `Except.error (e : PyError)` result of the function.
-/

/-- A tag on an EC2 instance, as in the `Tags` list of a describe response. -/
structure Tag where
  key : String
  value : String
deriving DecidableEq

/-- A tag filter, as passed in the `Filters` argument of `describe_instances`. -/
structure TagFilter where
  filterName : String
  values : List String
deriving DecidableEq

/-- A raw instance inside a reservation of a `describe_instances` response:
`InstanceId`, `State.Name` and the `Tags` list (absent key modelled as `[]`,
which is what `instance.get` with a `[]` default yields). -/
structure RawInstance where
  instanceId : String
  stateName : String
  tags : List Tag
deriving DecidableEq

/-- A reservation of a `describe_instances` response. -/
structure Reservation where
  instances : List RawInstance
deriving DecidableEq

/-- One `describe_instances` response page: its `Reservations` and the
optional `NextToken` (`none` when the key is absent). -/
structure Page where
  reservations : List Reservation
  nextToken : Option String
deriving DecidableEq

/-- The enriched instance record built by `list_instances` (the dict with
keys `name`, `id`, `state`, `termination_protection`, `stop_protection`). -/
structure InstanceRec where
  name : String
  id : String
  state : String
  termination_protection : Bool
  stop_protection : Bool
deriving DecidableEq

/-- The per-instance record returned by `create_ami` (keys `instance_name`,
`instance_id`, `ami_id`, `ami_name`, `backup_completed`). -/
structure BackupResult where
  instance_name : String
  instance_id : String
  ami_id : String
  ami_name : String
  backup_completed : Bool
deriving DecidableEq

/-- The per-instance record returned by `terminate_instances` (keys
`instance_name`, `instance_id`, `terminate_completed`). -/
structure TermResult where
  instance_name : String
  instance_id : String
  terminate_completed : Bool
deriving DecidableEq

/-- `CurrentState` of one entry of `TerminatingInstances`. -/
structure TermState where
  currentStateName : String
deriving DecidableEq

/-- Response of the provider `terminate_instances` call. -/
structure TermResp where
  terminatingInstances : List TermState
deriving DecidableEq

/-- A Python-level error escaping a function of the script. -/
inductive PyError where
  /-- An unbound local variable was referenced (`UnboundLocalError`). -/
  | nameError (varName : String)
  /-- A provider error propagated out of the function uncaught. -/
  | uncaughtClientError (msg : String)
deriving DecidableEq

/-- One provider call / blocking action performed by the script, recorded in
order in a trace. -/
inductive Event where
  | describeCall (filters : Option (List TagFilter)) (token : Option String)
  | describeAttr (instanceId : String) (attr : String)
  | modifyAttr (instanceId : String) (attr : String)
  | createImageCall (instanceId : String) (imgName : String) (description : String)
  | createTagsCall (resources : List String) (tagValue : String)
  | terminateCall (instanceIds : List String)
  | sleepCall (seconds : Nat)
  | promptYN
  | promptEnter
deriving DecidableEq

/-- Whether an event mutates provider state (modify attribute, create image,
create tags, terminate). -/
def Event.isMutating : Event → Bool
  | .modifyAttr _ _ => true
  | .createImageCall _ _ _ => true
  | .createTagsCall _ _ => true
  | .terminateCall _ => true
  | _ => false

/-- Whether an event is an operator prompt. -/
def Event.isPrompt : Event → Bool
  | .promptYN => true
  | .promptEnter => true
  | _ => false

/-- Whether an event is a `describe_instances` call. -/
def Event.isDescribe : Event → Bool
  | .describeCall _ _ => true
  | _ => false

/-- Whether an event is a `describe_instances` call that carries a `Filters`
argument. -/
def Event.isFilteredDescribe : Event → Bool
  | .describeCall (some _) _ => true
  | _ => false

/-- Whether an event is a `create_image` call. -/
def Event.isCreateImage : Event → Bool
  | .createImageCall _ _ _ => true
  | _ => false

/-- Whether an event is a provider `terminate_instances` call. -/
def Event.isTerminate : Event → Bool
  | .terminateCall _ => true
  | _ => false

/-- Number of mutating provider calls in a trace. -/
def countMutating (evs : List Event) : Nat := evs.countP Event.isMutating

/-- Number of operator prompts in a trace. -/
def countPrompts (evs : List Event) : Nat := evs.countP Event.isPrompt

/-- Number of `describe_instances` calls in a trace. -/
def countDescribe (evs : List Event) : Nat := evs.countP Event.isDescribe

/-- Number of `describe_instances` calls carrying a `Filters` argument. -/
def countFilteredDescribe (evs : List Event) : Nat := evs.countP Event.isFilteredDescribe

/-- Number of `create_image` calls in a trace. -/
def countCreateImage (evs : List Event) : Nat := evs.countP Event.isCreateImage

/-- Number of provider termination calls in a trace. -/
def countTerminateCalls (evs : List Event) : Nat := evs.countP Event.isTerminate

/-- `get_tag_value(tag_key, tags)`: value of the first matching tag, else the
sentinel `"N/A"`; a non-list `tags` value is modelled as `none`. -/
def get_tag_value (tag_key : String) (tags : Option (List Tag)) : String :=
  match tags with
  | some l =>
    match l.find? (fun t => t.key = tag_key) with
    | some t => t.value
    | none => "N/A"
  | none => "N/A"

/-- `get_protections_status`: two `describe_instance_attribute` read calls;
the environment oracle `prot` gives the (termination, stop) flag values. -/
def get_protections_status (prot : String → Bool × Bool) (instance_id : String) :
    (Bool × Bool) × List Event :=
  (prot instance_id,
   [Event.describeAttr instance_id "disableApiTermination",
    Event.describeAttr instance_id "disableApiStop"])

/-- `disable_instance_protections`: one `modify_instance_attribute` call per
flag requested cleared. -/
def disable_instance_protections (instance_id : String)
    (disable_termination : Bool) (disable_stop : Bool) : List Event :=
  (if disable_termination then [Event.modifyAttr instance_id "DisableApiTermination"] else []) ++
  (if disable_stop then [Event.modifyAttr instance_id "DisableApiStop"] else [])

/-- Environment of `list_instances`: the first `describe_instances`
response, the successive responses to the continuation calls, and the
protection-attribute oracle. -/
structure ListEnv where
  firstPage : Page
  contPages : List Page
  prot : String → Bool × Bool

/-- The while-NextToken-in-response pagination loop of `list_instances`:
while the current response carries a token, the next scripted page is
fetched (the call passes only `NextToken`, no `Filters`) and its
reservations are accumulated. -/
def paginate : List Page → Page → List Reservation × List Event
  | [], _ => ([], [])
  | next :: rest, resp =>
    match resp.nextToken with
    | none => ([], [])
    | some tok =>
      let r := paginate rest next
      (next.reservations ++ r.1, Event.describeCall none (some tok) :: r.2)

/-- The per-raw-instance enrichment loop of `list_instances`: resolve the
`Name` tag, read both protection attributes (also for instances later
discarded by the state filter), and keep only instances whose state is
`running`, `stopping` or `stopped`. -/
def process_instances (prot : String → Bool × Bool) :
    List RawInstance → List InstanceRec × List Event
  | [] => ([], [])
  | ri :: rest =>
    let instance_name := get_tag_value "Name" (some ri.tags)
    let p := get_protections_status prot ri.instanceId
    let r := process_instances prot rest
    if ri.stateName ∈ ["running", "stopping", "stopped"] then
      (⟨instance_name, ri.instanceId, ri.stateName, p.1.1, p.1.2⟩ :: r.1, p.2 ++ r.2)
    else
      (r.1, p.2 ++ r.2)

/-- `list_instances(ec2_client, tags)`: first `describe_instances` call with
the tag filter, pagination loop, then enrichment of every raw instance of
every accumulated reservation. -/
def list_instances (env : ListEnv) (tags : List TagFilter) :
    List InstanceRec × List Event :=
  let pag := paginate env.contPages env.firstPage
  let reservations := env.firstPage.reservations ++ pag.1
  let raw := (reservations.map Reservation.instances).flatten
  let proc := process_instances env.prot raw
  (proc.1, Event.describeCall (some tags) none :: pag.2 ++ proc.2)

/-- Environment of `create_ami` for one run: the results of the first and
second `create_image` attempts (by instance id) and of the `create_tags`
call (by image id); `Except.error` is a raised `ClientError`. -/
structure AmiEnv where
  attempt1 : String → Except String String
  attempt2 : String → Except String String
  tagResult : String → Except String Unit

/-- AMI name generated by `create_ami` from the instance id and timestamp. -/
def amiName (instance_id : String) (ts : String) : String :=
  "EC2DeletionScript_" ++ instance_id ++ "_" ++ ts

/-- AMI description generated by `create_ami` from the timestamp. -/
def amiDescription (ts : String) : String :=
  "AMI created on " ++ ts ++ " by EC2 deletion script."

/-- Tail of `create_ami` after a `create_image` call succeeded: `ami_id` is
bound, a `Name` tag is added to the AMI by a `create_tags` call standing
outside any `try`, so its failure propagates out of `create_ami` uncaught;
on success the record with `backup_completed = True` is returned. -/
def finish_ami (env : AmiEnv) (inst : InstanceRec) (ami_name : String)
    (imageId : String) (pre : List Event) : Except PyError BackupResult × List Event :=
  let evs := pre ++ [Event.createTagsCall [imageId] ami_name]
  match env.tagResult imageId with
  | Except.error e => (Except.error (PyError.uncaughtClientError e), evs)
  | Except.ok _ => (Except.ok ⟨inst.name, inst.id, imageId, ami_name, true⟩, evs)

/-- `create_ami(ec2_client, instance)`: generate name and description once,
attempt `create_image`; on `ClientError` sleep 5 and retry once with the
same name and description; on a second `ClientError` the `return` statement
references the local `ami_id`, which was never assigned on this path, so an
`UnboundLocalError` escapes. -/
def create_ami (env : AmiEnv) (ts : String) (inst : InstanceRec) :
    Except PyError BackupResult × List Event :=
  let ami_name := amiName inst.id ts
  let ami_description := amiDescription ts
  match env.attempt1 inst.id with
  | Except.ok imageId =>
    finish_ami env inst ami_name imageId
      [Event.createImageCall inst.id ami_name ami_description]
  | Except.error _ =>
    match env.attempt2 inst.id with
    | Except.ok imageId =>
      finish_ami env inst ami_name imageId
        [Event.createImageCall inst.id ami_name ami_description,
         Event.sleepCall 5,
         Event.createImageCall inst.id ami_name ami_description]
    | Except.error _ =>
      (Except.error (PyError.nameError "ami_id"),
       [Event.createImageCall inst.id ami_name ami_description,
        Event.sleepCall 5,
        Event.createImageCall inst.id ami_name ami_description])

/-- `backup_instances(ec2_client, instances)`: `create_ami` on each instance
in order, appending each result; an error escaping `create_ami` escapes the
loop (there is no try around the loop body). -/
def backup_instances (env : AmiEnv) (ts : String) :
    List InstanceRec → Except PyError (List BackupResult) × List Event
  | [] => (Except.ok [], [])
  | inst :: rest =>
    match create_ami env ts inst with
    | (Except.error e, ev) => (Except.error e, ev)
    | (Except.ok r, ev) =>
      match backup_instances env ts rest with
      | (Except.error e, evs) => (Except.error e, ev ++ evs)
      | (Except.ok rs, evs) => (Except.ok (r :: rs), ev ++ evs)

/-- Environment of the termination stage: result of the provider
`terminate_instances` call by instance id; `Except.error` is a raised
exception. -/
structure TermEnv where
  terminate : String → Except String TermResp

/-- One iteration of the loop of `terminate_instances`: issue the
termination call for the `instance_id` of the element; on success sleep 3 and
read `TerminatingInstances[0].CurrentState.Name` (an empty list raises an
`IndexError`, caught by the bare `except` like any other exception, leaving
`status = False`); `terminate_completed` is true exactly when that state is
`shutting-down`. -/
def terminate_one (env : TermEnv) (inst : BackupResult) : TermResult × List Event :=
  match env.terminate inst.instance_id with
  | Except.error _ =>
    (⟨inst.instance_name, inst.instance_id, false⟩,
     [Event.terminateCall [inst.instance_id]])
  | Except.ok resp =>
    let evs := [Event.terminateCall [inst.instance_id], Event.sleepCall 3]
    match resp.terminatingInstances with
    | [] => (⟨inst.instance_name, inst.instance_id, false⟩, evs)
    | st :: _ =>
      if st.currentStateName = "shutting-down" then
        (⟨inst.instance_name, inst.instance_id, true⟩, evs)
      else
        (⟨inst.instance_name, inst.instance_id, false⟩, evs)

/-- `terminate_instances(ec2_client, instances)`: the loop body appends an
outcome on every path (success and exception), for every input element, with
no filtering on `backup_completed`. -/
def terminate_instances (env : TermEnv) :
    List BackupResult → List TermResult × List Event
  | [] => ([], [])
  | b :: rest =>
    let r := terminate_one env b
    let rs := terminate_instances env rest
    (r.1 :: rs.1, r.2 ++ rs.2)

/-- The fixed tag filter baked into `main`. -/
def scriptTags : List TagFilter :=
  [⟨"tag:Project", ["Automation"]⟩, ⟨"tag:Environment", ["Test", "Dev"]⟩]

/-- `any(termination_protection or stop_protection)` scan of `main`. -/
def hasProtections (l : List InstanceRec) : Bool :=
  l.any fun i => i.termination_protection || i.stop_protection

/-- The clearing loop of `main`: `disable_instance_protections` with both
flags requested on every instance of the full set. -/
def clearAllProtections (l : List InstanceRec) : List Event :=
  (l.map fun i => disable_instance_protections i.id true true).flatten

/-- The Python `str.lower()` applied to the operator answer, modelled
structurally over the character list. -/
def strLower (s : String) : String := ⟨s.data.map Char.toLower⟩

/-- How a run of `main` ends. -/
inductive RunExit where
  /-- `main` returned normally. -/
  | completed
  /-- The operator declined the protection prompt and `sys.exit()` ran. -/
  | userAbort
  /-- A Python error escaped (the script crashed). -/
  | crashed (e : PyError)
deriving DecidableEq

/-- Environment of a whole run of `main`: the two listing environments (the
initial listing and the re-listing after clearing), the answer of the operator to
the protection prompt, the timestamp, and the backup and termination
oracles. -/
structure MainEnv where
  list1 : ListEnv
  list2 : ListEnv
  yn : String
  ts : String
  ami : AmiEnv
  term : TermEnv

/-- Tail of `main` from the pre-backup pause onward: pause, backup stage,
pause, then the termination stage applied to the full backup result list. -/
def mainRest (env : MainEnv) (instances : List InstanceRec) (pre : List Event) :
    RunExit × List Event :=
  match backup_instances env.ami env.ts instances with
  | (Except.error e, bev) => (RunExit.crashed e, pre ++ [Event.promptEnter] ++ bev)
  | (Except.ok results, bev) =>
    (RunExit.completed,
     pre ++ [Event.promptEnter] ++ bev ++ [Event.promptEnter] ++
       (terminate_instances env.term results).2)

namespace Script

/-- `main()`: list instances; stop if none; if any protection flag is set,
prompt the operator — on refusal `sys.exit()`, on `y` clear both flags on
every instance and re-list; then pause, back up, pause, terminate. -/
def main (env : MainEnv) : RunExit × List Event :=
  if (list_instances env.list1 scriptTags).1.isEmpty then
    (RunExit.completed, (list_instances env.list1 scriptTags).2)
  else if hasProtections (list_instances env.list1 scriptTags).1 then
    if strLower env.yn = "y" then
      mainRest env (list_instances env.list2 scriptTags).1
        ((list_instances env.list1 scriptTags).2 ++ [Event.promptYN] ++
         clearAllProtections (list_instances env.list1 scriptTags).1 ++
         (list_instances env.list2 scriptTags).2)
    else
      (RunExit.userAbort, (list_instances env.list1 scriptTags).2 ++ [Event.promptYN])
  else
    mainRest env (list_instances env.list1 scriptTags).1
      (list_instances env.list1 scriptTags).2

end Script

/-- A well-formed continuation script: every response up to the last carries
a `NextToken` and the last does not, so the pagination loop consumes the
whole script. -/
def goodChain : Page → List Page → Bool
  | p, [] => p.nextToken.isNone
  | p, q :: rest => p.nextToken.isSome && goodChain q rest

theorem paginate_countP (p : Event → Bool)
    (hp : ∀ t, p (Event.describeCall none (some t)) = false)
    (script : List Page) (resp : Page) :
    (paginate script resp).2.countP p = 0 := by
  induction script generalizing resp with
  | nil => simp [paginate]
  | cons next rest ih =>
    cases h : resp.nextToken with
    | none => simp [paginate, h]
    | some tok => simp [paginate, h, List.countP_cons, hp, ih next]

theorem paginate_describe_count (script : List Page) (resp : Page)
    (h : goodChain resp script = true) :
    (paginate script resp).2.countP Event.isDescribe = script.length := by
  induction script generalizing resp with
  | nil => simp [paginate]
  | cons next rest ih =>
    rw [goodChain, Bool.and_eq_true] at h
    obtain ⟨tok, ht⟩ := Option.isSome_iff_exists.mp h.1
    simp [paginate, ht, List.countP_cons, Event.isDescribe, ih next h.2]

theorem paginate_accumulates (script : List Page) (resp : Page)
    (h : goodChain resp script = true) :
    (paginate script resp).1 = (script.map Page.reservations).flatten := by
  induction script generalizing resp with
  | nil => simp [paginate]
  | cons next rest ih =>
    rw [goodChain, Bool.and_eq_true] at h
    obtain ⟨tok, ht⟩ := Option.isSome_iff_exists.mp h.1
    simp [paginate, ht, ih next h.2]

theorem process_countP (p : Event → Bool)
    (hp : ∀ i a, p (Event.describeAttr i a) = false)
    (prot : String → Bool × Bool) (raw : List RawInstance) :
    (process_instances prot raw).2.countP p = 0 := by
  induction raw with
  | nil => simp [process_instances]
  | cons ri rest ih =>
    by_cases hs : ri.stateName ∈ ["running", "stopping", "stopped"] <;>
      simp [process_instances, hs, get_protections_status, List.countP_cons, hp, ih]

/-- Definitional shape of the trace of `list_instances`: the filtered first
call, then the pagination calls, then the attribute reads. -/
theorem list_instances_trace (env : ListEnv) (tags : List TagFilter) :
    (list_instances env tags).2 =
      Event.describeCall (some tags) none ::
        ((paginate env.contPages env.firstPage).2 ++
         (process_instances env.prot
           (((env.firstPage.reservations ++
              (paginate env.contPages env.firstPage).1).map
             Reservation.instances).flatten)).2) := rfl

theorem list_instances_countP (p : Event → Bool)
    (hp1 : ∀ t, p (Event.describeCall none (some t)) = false)
    (hp2 : ∀ i a, p (Event.describeAttr i a) = false)
    (env : ListEnv) (tags : List TagFilter) :
    (list_instances env tags).2.countP p =
      if p (Event.describeCall (some tags) none) then 1 else 0 := by
  rw [list_instances_trace, List.countP_cons, List.countP_append,
      paginate_countP p hp1, process_countP p hp2]
  simp

theorem list_instances_no_mutating (env : ListEnv) (tags : List TagFilter) :
    countMutating (list_instances env tags).2 = 0 := by
  unfold countMutating
  rw [list_instances_countP Event.isMutating (fun _ => rfl) (fun _ _ => rfl)]
  rfl

theorem list_instances_no_prompts (env : ListEnv) (tags : List TagFilter) :
    countPrompts (list_instances env tags).2 = 0 := by
  unfold countPrompts
  rw [list_instances_countP Event.isPrompt (fun _ => rfl) (fun _ _ => rfl)]
  rfl

theorem list_instances_filtered_describe (env : ListEnv) (tags : List TagFilter) :
    countFilteredDescribe (list_instances env tags).2 = 1 := by
  unfold countFilteredDescribe
  rw [list_instances_countP Event.isFilteredDescribe (fun _ => rfl) (fun _ _ => rfl)]
  rfl

theorem list_instances_describe_count (env : ListEnv) (tags : List TagFilter)
    (h : goodChain env.firstPage env.contPages = true) :
    countDescribe (list_instances env tags).2 = 1 + env.contPages.length := by
  unfold countDescribe
  rw [list_instances_trace, List.countP_cons, List.countP_append,
      paginate_describe_count env.contPages env.firstPage h,
      process_countP Event.isDescribe (fun _ _ => rfl)]
  simp [Event.isDescribe, Nat.add_comm]

theorem hasProtections_isEmpty_false (l : List InstanceRec)
    (h : hasProtections l = true) : l.isEmpty = false := by
  cases l with
  | nil => simp [hasProtections] at h
  | cons a t => rfl

theorem mainRest_trace (env : MainEnv) (instances : List InstanceRec)
    (pre : List Event) :
    ∃ rest, (mainRest env instances pre).2 = pre ++ Event.promptEnter :: rest := by
  rcases hb : backup_instances env.ami env.ts instances with ⟨r, ev⟩
  cases r with
  | error e => exact ⟨ev, by simp [mainRest, hb]⟩
  | ok results =>
    exact ⟨ev ++ [Event.promptEnter] ++ (terminate_instances env.term results).2,
      by simp [mainRest, hb]⟩

theorem terminate_one_fields (tenv : TermEnv) (b : BackupResult) :
    (terminate_one tenv b).1.instance_id = b.instance_id ∧
    (terminate_one tenv b).1.instance_name = b.instance_name := by
  unfold terminate_one
  rcases h : tenv.terminate b.instance_id with e | resp
  · exact ⟨rfl, rfl⟩
  · obtain ⟨ti⟩ := resp
    cases ti with
    | nil => exact ⟨rfl, rfl⟩
    | cons st rest =>
      by_cases hs : st.currentStateName = "shutting-down" <;> simp [hs]

/-- Termination oracle that accepts every request and reports the instance
as shutting down. -/
def c1TermEnv : TermEnv :=
  ⟨fun _ => Except.ok ⟨[⟨"shutting-down"⟩]⟩⟩

/-- A backup outcome whose backup failed (`backup_completed = false`). -/
def c1FailedBackup : BackupResult :=
  ⟨"db-server", "i-00000001", "N/A", "N/A", false⟩

/-- C1: false on the code as a property of the Termination Stage — given a
backup-outcome list containing an entry with `backup_completed = false`,
`terminate_instances` performs no filtering: it issues a termination request
for that instance and records a TerminationOutcome for it, so an instance
with a failed backup is terminated. -/
theorem C1_terminates_despite_failed_backup :
    c1FailedBackup.backup_completed = false ∧
    (terminate_instances c1TermEnv [c1FailedBackup]).2 =
      [Event.terminateCall ["i-00000001"], Event.sleepCall 3] ∧
    (terminate_instances c1TermEnv [c1FailedBackup]).1 =
      [⟨"db-server", "i-00000001", true⟩] :=
  ⟨rfl, rfl, rfl⟩

/-- Backup oracle that rejects the `create_image` call on both attempts. -/
def c2AmiEnv : AmiEnv :=
  ⟨fun _ => Except.error "RequestLimitExceeded",
   fun _ => Except.error "RequestLimitExceeded",
   fun _ => Except.ok ()⟩

/-- Instance whose backup is attempted in the C2 run. -/
def c2Inst : InstanceRec := ⟨"web-server", "i-00000002", "running", false, false⟩

/-- C2: false on the code — when both `create_image` attempts are rejected,
the failure-path `return` references the local `ami_id`, which is only
assigned after the try block, so `create_ami` raises `UnboundLocalError`
instead of returning a record with `backup_completed = false` and a
no-artifact sentinel. -/
theorem C2_double_rejection_raises_unbound_local :
    (create_ami c2AmiEnv "20240101000000" c2Inst).1 =
      Except.error (PyError.nameError "ami_id") :=
  rfl

/-- Backup oracle rejecting both attempts, for the C3 run. -/
def c3AmiEnv : AmiEnv :=
  ⟨fun _ => Except.error "Throttling",
   fun _ => Except.error "Throttling",
   fun _ => Except.ok ()⟩

/-- Instance whose backup is attempted in the C3 run. -/
def c3Inst : InstanceRec := ⟨"app-server", "i-00000003", "running", false, false⟩

/-- C3: false on the code — for an input list of N = 1 instances whose
backup fails on both attempts, `backup_instances` does not return 1
BackupOutcome record: the `UnboundLocalError` escaping `create_ami` aborts
the loop and no outcome list is produced at all. -/
theorem C3_outcome_list_lost_on_double_failure :
    (backup_instances c3AmiEnv "20240101000000" [c3Inst]).1 =
      Except.error (PyError.nameError "ami_id") :=
  rfl

/-- Backup oracle whose `create_image` succeeds at once but whose
`create_tags` call is rejected. -/
def c5AmiEnv : AmiEnv :=
  ⟨fun _ => Except.ok "ami-0c5",
   fun _ => Except.ok "ami-0c5",
   fun _ => Except.error "TagError"⟩

/-- Instance whose backup is attempted in the C5 run. -/
def c5Inst : InstanceRec := ⟨"cache-server", "i-00000005", "running", false, false⟩

/-- C5 counterexample: with a successful `create_image` and a failing
`create_tags`, `create_ami` does not return a `backup_completed = true`
outcome — the tagging error escapes uncaught and aborts the whole batch,
refuting the claim that the tagging failure is swallowed. -/
theorem C5_tagging_failure_not_swallowed :
    (create_ami c5AmiEnv "20240101000000" c5Inst).1 =
      Except.error (PyError.uncaughtClientError "TagError") ∧
    (backup_instances c5AmiEnv "20240101000000" [c5Inst]).1 =
      Except.error (PyError.uncaughtClientError "TagError") :=
  ⟨rfl, rfl⟩

/-- Listing environment with two pages: the first response carries
`NextToken` token-1, the second response is final. -/
def c6ListEnv : ListEnv :=
  ⟨⟨[⟨[⟨"i-00000006", "running", [⟨"Name", "page1-host"⟩]⟩]⟩], some "token-1"⟩,
   [⟨[⟨[⟨"i-00000007", "stopped", [⟨"Name", "page2-host"⟩]⟩]⟩], none⟩],
   fun _ => (false, false)⟩

/-- C6 counterexample: in a two-page listing, two `describe_instances`
calls are made but only the first carries the `Filters` argument — the
continuation call passes only the token, refuting that every page is
fetched under the same filter. -/
theorem C6_continuation_call_drops_filter :
    countDescribe (list_instances c6ListEnv scriptTags).2 = 2 ∧
    countFilteredDescribe (list_instances c6ListEnv scriptTags).2 = 1 ∧
    (list_instances c6ListEnv scriptTags).2.get? 1 =
      some (Event.describeCall none (some "token-1")) := by
  refine ⟨by decide, by decide, by decide⟩

/-- C10: `terminate_instances` returns exactly one TerminationOutcome per
input element, in the same order, each carrying the instance id and name of
its element — for every termination oracle, including ones that raise. -/
theorem C10_one_outcome_per_element (tenv : TermEnv) (bs : List BackupResult) :
    (terminate_instances tenv bs).1.map
        (fun r => (r.instance_id, r.instance_name)) =
      bs.map (fun b => (b.instance_id, b.instance_name)) ∧
    (terminate_instances tenv bs).1.length = bs.length := by
  induction bs with
  | nil => exact ⟨rfl, rfl⟩
  | cons b rest ih =>
    have hf := terminate_one_fields tenv b
    refine ⟨?_, ?_⟩
    · simpa [terminate_instances, hf.1, hf.2] using ih.1
    · simpa [terminate_instances] using ih.2

/-- The image id resolved by the try/retry structure of `create_ami`: the
result of the first `create_image` attempt when it is accepted, otherwise
the result of the single retry. `Except.ok` exactly when the backup
creation call succeeds on the first or on the second attempt. -/
def acceptedImage (env : AmiEnv) (instance_id : String) : Except String String :=
  match env.attempt1 instance_id with
  | Except.ok imageId => Except.ok imageId
  | Except.error _ => env.attempt2 instance_id

theorem finish_ami_result (env : AmiEnv) (inst : InstanceRec)
    (ami_name imageId : String) (pre : List Event) :
    (finish_ami env inst ami_name imageId pre).1 =
      (match env.tagResult imageId with
       | Except.error e => Except.error (PyError.uncaughtClientError e)
       | Except.ok _ =>
         Except.ok ⟨inst.name, inst.id, imageId, ami_name, true⟩) := by
  unfold finish_ami
  cases env.tagResult imageId <;> rfl

/-- C5 amended: for every instance whose backup creation call succeeds — on
the first attempt or on the retry — the outcome with
`backup_completed = true` and the resolved `ami_id` is returned only when
the `create_tags` call also succeeds; a `create_tags` failure is not
swallowed — it escapes `create_ami` uncaught and aborts the batch in
`backup_instances`. -/
theorem C5_amended_tagging_failure_propagates (env : AmiEnv) (ts : String)
    (inst : InstanceRec) (imageId : String)
    (h1 : acceptedImage env inst.id = Except.ok imageId) :
    (env.tagResult imageId = Except.ok () →
      (create_ami env ts inst).1 =
        Except.ok ⟨inst.name, inst.id, imageId, amiName inst.id ts, true⟩) ∧
    (∀ e, env.tagResult imageId = Except.error e →
      (create_ami env ts inst).1 =
        Except.error (PyError.uncaughtClientError e) ∧
      ∀ rest, (backup_instances env ts (inst :: rest)).1 =
        Except.error (PyError.uncaughtClientError e)) := by
  have hr : (create_ami env ts inst).1 =
      (match env.tagResult imageId with
       | Except.error e => Except.error (PyError.uncaughtClientError e)
       | Except.ok _ =>
         Except.ok ⟨inst.name, inst.id, imageId, amiName inst.id ts, true⟩) := by
    rcases ha : env.attempt1 inst.id with e0 | i1
    · have h2 : env.attempt2 inst.id = Except.ok imageId := by
        unfold acceptedImage at h1
        rw [ha] at h1
        exact h1
      simp [create_ami, ha, h2, finish_ami_result]
    · have h2 : i1 = imageId := by
        unfold acceptedImage at h1
        rw [ha] at h1
        exact Except.ok.inj h1
      subst h2
      simp [create_ami, ha, finish_ami_result]
  constructor
  · intro ht
    rw [hr, ht]
  · intro e ht
    have hc : (create_ami env ts inst).1 =
        Except.error (PyError.uncaughtClientError e) := by
      rw [hr, ht]
    refine ⟨hc, fun rest => ?_⟩
    rcases hca : create_ami env ts inst with ⟨r, ev⟩
    rw [hca] at hc
    cases r with
    | error er =>
      cases hc
      simp [backup_instances, hca]
    | ok r => simp at hc

/-- Backup oracle whose first `create_image` attempt is rejected, whose
retry is accepted, and whose `create_tags` call is rejected. -/
def w5AmiEnv : AmiEnv :=
  ⟨fun _ => Except.error "Throttling",
   fun _ => Except.ok "ami-0w5",
   fun _ => Except.error "TagLimitExceeded"⟩

/-- Instance whose backup is attempted in the C5 witness run. -/
def w5Inst : InstanceRec := ⟨"log-server", "i-00000010", "running", false, false⟩

/-- C5 amended witness at a concrete environment whose backup succeeds on
the retry and whose tagging call fails. -/
theorem C5_amended_witness :
    (create_ami w5AmiEnv "20240101000000" w5Inst).1 =
      Except.error (PyError.uncaughtClientError "TagLimitExceeded") ∧
    (backup_instances w5AmiEnv "20240101000000" [w5Inst]).1 =
      Except.error (PyError.uncaughtClientError "TagLimitExceeded") := by
  have h := (C5_amended_tagging_failure_propagates w5AmiEnv "20240101000000"
    w5Inst "ami-0w5" rfl).2 "TagLimitExceeded" rfl
  exact ⟨h.1, h.2 []⟩

/-- C6 amended: when the provider signals continuation, `list_instances`
repeats the listing call until the token is exhausted and accumulates the
reservations of every page, so the caller never sees a partial page set —
but only the first call carries the tag filter; the continuation calls pass
the token alone. -/
theorem C6_amended_pagination (env : ListEnv) (tags : List TagFilter)
    (h : goodChain env.firstPage env.contPages = true) :
    (paginate env.contPages env.firstPage).1 =
      (env.contPages.map Page.reservations).flatten ∧
    countDescribe (list_instances env tags).2 = 1 + env.contPages.length ∧
    countFilteredDescribe (list_instances env tags).2 = 1 :=
  ⟨paginate_accumulates env.contPages env.firstPage h,
   list_instances_describe_count env tags h,
   list_instances_filtered_describe env tags⟩

/-- C6 amended witness at the concrete two-page environment. -/
theorem C6_amended_witness :
    (paginate c6ListEnv.contPages c6ListEnv.firstPage).1 =
      (c6ListEnv.contPages.map Page.reservations).flatten ∧
    countDescribe (list_instances c6ListEnv scriptTags).2 = 1 + 1 :=
  ⟨(C6_amended_pagination c6ListEnv scriptTags rfl).1,
   (C6_amended_pagination c6ListEnv scriptTags rfl).2.1⟩

theorem finish_ami_trace (env : AmiEnv) (inst : InstanceRec)
    (ami_name imageId : String) (pre : List Event) :
    (finish_ami env inst ami_name imageId pre).2 =
      pre ++ [Event.createTagsCall [imageId] ami_name] := by
  unfold finish_ami
  cases env.tagResult imageId <;> rfl

/-- C7: a backup creation attempt makes exactly one `create_image` call when
the first attempt is accepted and exactly two when it is rejected — the
retry comes after a sleep of 5 and reuses the same generated name and
description — and a termination attempt issues exactly one provider
termination call, never retried. -/
theorem C7_retry_bounds (env : AmiEnv) (ts : String) (inst : InstanceRec)
    (tenv : TermEnv) (b : BackupResult) :
    countCreateImage (create_ami env ts inst).2 =
      (match env.attempt1 inst.id with
       | Except.ok _ => 1
       | Except.error _ => 2) ∧
    (∀ e, env.attempt1 inst.id = Except.error e →
      ∃ rest, (create_ami env ts inst).2 =
        Event.createImageCall inst.id (amiName inst.id ts) (amiDescription ts) ::
        Event.sleepCall 5 ::
        Event.createImageCall inst.id (amiName inst.id ts) (amiDescription ts) ::
        rest) ∧
    countTerminateCalls (terminate_one tenv b).2 = 1 := by
  refine ⟨?_, ?_, ?_⟩
  · rcases h1 : env.attempt1 inst.id with e | imageId
    · rcases h2 : env.attempt2 inst.id with e2 | imageId2
      · simp [create_ami, h1, h2, countCreateImage, List.countP_cons,
              Event.isCreateImage]
      · simp [create_ami, h1, h2, finish_ami_trace, countCreateImage,
              List.countP_cons, List.countP_append, Event.isCreateImage]
    · simp [create_ami, h1, finish_ami_trace, countCreateImage,
            List.countP_cons, List.countP_append, Event.isCreateImage]
  · intro e h1
    rcases h2 : env.attempt2 inst.id with e2 | imageId2
    · exact ⟨[], by simp [create_ami, h1, h2]⟩
    · exact ⟨[Event.createTagsCall [imageId2] (amiName inst.id ts)],
        by simp [create_ami, h1, h2, finish_ami_trace]⟩
  · rcases ht : tenv.terminate b.instance_id with e | resp
    · simp [terminate_one, ht, countTerminateCalls, List.countP_cons,
            Event.isTerminate]
    · obtain ⟨ti⟩ := resp
      cases ti with
      | nil =>
        simp [terminate_one, ht, countTerminateCalls, List.countP_cons,
              Event.isTerminate]
      | cons st rest =>
        by_cases hs : st.currentStateName = "shutting-down" <;>
          simp [terminate_one, ht, hs, countTerminateCalls, List.countP_cons,
                Event.isTerminate]

/-- Backup oracle rejecting the first attempt and accepting the retry. -/
def w7AmiEnv : AmiEnv :=
  ⟨fun _ => Except.error "Throttling",
   fun _ => Except.ok "ami-0w7",
   fun _ => Except.ok ()⟩

/-- Instance backed up in the C7 witness run. -/
def w7Inst : InstanceRec := ⟨"batch-host", "i-00000008", "running", false, false⟩

/-- Termination oracle that raises on every call. -/
def w7TermEnv : TermEnv := ⟨fun _ => Except.error "ApiError"⟩

/-- Backup outcome terminated in the C7 witness run. -/
def w7Backup : BackupResult := ⟨"batch-host", "i-00000008", "ami-0w7", "n", true⟩

/-- C7 witness at a concrete environment whose first attempt is rejected. -/
theorem C7_witness :
    countCreateImage (create_ami w7AmiEnv "20240101000000" w7Inst).2 = 2 ∧
    (∃ rest, (create_ami w7AmiEnv "20240101000000" w7Inst).2 =
      Event.createImageCall "i-00000008"
        (amiName "i-00000008" "20240101000000")
        (amiDescription "20240101000000") ::
      Event.sleepCall 5 ::
      Event.createImageCall "i-00000008"
        (amiName "i-00000008" "20240101000000")
        (amiDescription "20240101000000") :: rest) ∧
    countTerminateCalls (terminate_one w7TermEnv w7Backup).2 = 1 := by
  have h := C7_retry_bounds w7AmiEnv "20240101000000" w7Inst w7TermEnv w7Backup
  exact ⟨h.1.trans rfl, h.2.1 "Throttling" rfl, h.2.2⟩

/-- C8: the recorded TerminationOutcome has `terminate_completed = true`
exactly when the termination call returned a first terminating-instance
state equal to shutting-down; a raised exception or any other state gives
false, and the loop processes each element independently of the failures of
the previous ones. -/
theorem C8_success_iff_shutting_down (tenv : TermEnv) (b : BackupResult)
    (bs : List BackupResult) :
    ((terminate_one tenv b).1.terminate_completed = true ↔
      ∃ resp st rest, tenv.terminate b.instance_id = Except.ok resp ∧
        resp.terminatingInstances = st :: rest ∧
        st.currentStateName = "shutting-down") ∧
    (terminate_instances tenv (b :: bs)).1 =
      (terminate_one tenv b).1 :: (terminate_instances tenv bs).1 := by
  refine ⟨?_, rfl⟩
  rcases ht : tenv.terminate b.instance_id with e | resp
  · constructor
    · intro hc
      simp [terminate_one, ht] at hc
    · rintro ⟨resp, st, rest, heq, -, -⟩
      exact Except.noConfusion heq
  · obtain ⟨ti⟩ := resp
    cases ti with
    | nil =>
      constructor
      · intro hc
        simp [terminate_one, ht] at hc
      · rintro ⟨resp2, st, rest, heq, hl, -⟩
        cases heq
        have hl2 : ([] : List TermState) = st :: rest := hl
        exact List.noConfusion hl2
    | cons st0 rest0 =>
      by_cases hs : st0.currentStateName = "shutting-down"
      · constructor
        · intro _
          exact ⟨⟨st0 :: rest0⟩, st0, rest0, rfl, rfl, hs⟩
        · intro _
          simp [terminate_one, ht, hs]
      · constructor
        · intro hc
          simp [terminate_one, ht, hs] at hc
        · rintro ⟨resp2, st, rest, heq, hl, hshut⟩
          cases heq
          have hl2 : st0 :: rest0 = st :: rest := hl
          injection hl2 with h1 h2
          subst h1
          exact absurd hshut hs

/-- Termination oracle reporting a state other than shutting-down. -/
def w8TermEnv : TermEnv := ⟨fun _ => Except.ok ⟨[⟨"running"⟩]⟩⟩

/-- Backup outcome terminated in the C8 witness run. -/
def w8Backup : BackupResult := ⟨"db-host", "i-00000009", "ami-0w8", "n", true⟩

/-- C8 witness at a concrete environment. -/
theorem C8_witness :
    (terminate_instances w8TermEnv [w8Backup]).1 =
      (terminate_one w8TermEnv w8Backup).1 ::
        (terminate_instances w8TermEnv []).1 :=
  (C8_success_iff_shutting_down w8TermEnv w8Backup []).2

/-- C4: whenever the listed inventory contains an instance with a protection
flag, `main` asks for confirmation right after the listing — the trace up to
the prompt is the listing trace, which contains no mutating call — and if
the operator answer is not y, the run exits with no mutating provider call
at all (no clear, no backup, no termination). -/
theorem C4_protection_gate (env : MainEnv)
    (hprot : hasProtections (list_instances env.list1 scriptTags).1 = true) :
    (∃ post, (Script.main env).2 =
        (list_instances env.list1 scriptTags).2 ++ Event.promptYN :: post) ∧
    countMutating (list_instances env.list1 scriptTags).2 = 0 ∧
    (strLower env.yn ≠ "y" →
      (Script.main env).1 = RunExit.userAbort ∧
      (Script.main env).2 =
        (list_instances env.list1 scriptTags).2 ++ [Event.promptYN] ∧
      countMutating (Script.main env).2 = 0) := by
  have hne : (list_instances env.list1 scriptTags).1.isEmpty = false :=
    hasProtections_isEmpty_false _ hprot
  refine ⟨?_, list_instances_no_mutating env.list1 scriptTags, ?_⟩
  · by_cases hy : strLower env.yn = "y"
    · obtain ⟨rest, hrest⟩ := mainRest_trace env
        (list_instances env.list2 scriptTags).1
        ((list_instances env.list1 scriptTags).2 ++ [Event.promptYN] ++
         clearAllProtections (list_instances env.list1 scriptTags).1 ++
         (list_instances env.list2 scriptTags).2)
      refine ⟨clearAllProtections (list_instances env.list1 scriptTags).1 ++
          ((list_instances env.list2 scriptTags).2 ++
           Event.promptEnter :: rest), ?_⟩
      have hm : (Script.main env).2 =
          (mainRest env (list_instances env.list2 scriptTags).1
            ((list_instances env.list1 scriptTags).2 ++ [Event.promptYN] ++
             clearAllProtections (list_instances env.list1 scriptTags).1 ++
             (list_instances env.list2 scriptTags).2)).2 := by
        simp [Script.main, hne, hprot, hy]
      rw [hm, hrest]
      simp [List.append_assoc]
    · have hm : (Script.main env).2 =
          (list_instances env.list1 scriptTags).2 ++ [Event.promptYN] := by
        simp [Script.main, hne, hprot, hy]
      exact ⟨[], hm⟩
  · intro hy
    have h1 : (Script.main env).1 = RunExit.userAbort := by
      simp [Script.main, hne, hprot, hy]
    have h2 : (Script.main env).2 =
        (list_instances env.list1 scriptTags).2 ++ [Event.promptYN] := by
      simp [Script.main, hne, hprot, hy]
    refine ⟨h1, h2, ?_⟩
    rw [h2]
    unfold countMutating
    rw [List.countP_append]
    have h0 := list_instances_no_mutating env.list1 scriptTags
    unfold countMutating at h0
    rw [h0]
    rfl

/-- Listing environment whose single instance carries termination
protection. -/
def w4ListEnv : ListEnv :=
  ⟨⟨[⟨[⟨"i-00000004", "running", [⟨"Name", "protected-host"⟩]⟩]⟩], none⟩, [],
   fun _ => (true, false)⟩

/-- Run environment for the C4 witness: protected instance, operator
declines. -/
def w4MainEnv : MainEnv :=
  ⟨w4ListEnv, w4ListEnv, "n", "20240101000000",
   ⟨fun _ => Except.ok "ami-0w4", fun _ => Except.ok "ami-0w4",
    fun _ => Except.ok ()⟩,
   ⟨fun _ => Except.ok ⟨[⟨"shutting-down"⟩]⟩⟩⟩

/-- C4 witness: concrete protected inventory, refusal, zero mutating calls. -/
theorem C4_witness :
    hasProtections (list_instances w4MainEnv.list1 scriptTags).1 = true ∧
    (Script.main w4MainEnv).1 = RunExit.userAbort ∧
    countMutating (Script.main w4MainEnv).2 = 0 := by
  have h := (C4_protection_gate w4MainEnv (by decide)).2.2 (by decide)
  exact ⟨by decide, h.1, h.2.2⟩

/-- C9: when the initial listing yields zero instances, `main` ends right
after it — the whole trace is the listing trace, with no prompt shown and
no mutating provider call, so neither clearing, backup nor termination runs. -/
theorem C9_empty_inventory_run (env : MainEnv)
    (h : (list_instances env.list1 scriptTags).1 = []) :
    (Script.main env).1 = RunExit.completed ∧
    (Script.main env).2 = (list_instances env.list1 scriptTags).2 ∧
    countPrompts (Script.main env).2 = 0 ∧
    countMutating (Script.main env).2 = 0 := by
  have he : (list_instances env.list1 scriptTags).1.isEmpty = true := by
    rw [h]; rfl
  have h1 : (Script.main env).1 = RunExit.completed := by
    simp [Script.main, he]
  have h2 : (Script.main env).2 = (list_instances env.list1 scriptTags).2 := by
    simp [Script.main, he]
  refine ⟨h1, h2, ?_, ?_⟩
  · rw [h2]; exact list_instances_no_prompts env.list1 scriptTags
  · rw [h2]; exact list_instances_no_mutating env.list1 scriptTags

/-- Listing environment returning zero instances. -/
def w9ListEnv : ListEnv := ⟨⟨[], none⟩, [], fun _ => (false, false)⟩

/-- Run environment for the C9 witness. -/
def w9MainEnv : MainEnv :=
  ⟨w9ListEnv, w9ListEnv, "y", "20240101000000",
   ⟨fun _ => Except.ok "ami-0w9", fun _ => Except.ok "ami-0w9",
    fun _ => Except.ok ()⟩,
   ⟨fun _ => Except.ok ⟨[]⟩⟩⟩

/-- C9 witness: concrete empty inventory, run completes with no prompts. -/
theorem C9_witness :
    (Script.main w9MainEnv).1 = RunExit.completed ∧
    countPrompts (Script.main w9MainEnv).2 = 0 :=
  ⟨(C9_empty_inventory_run w9MainEnv rfl).1,
   (C9_empty_inventory_run w9MainEnv rfl).2.2.1⟩
